import Mathlib

/-!
Verification of the containers widget (appui/containers.go): a virtualized,
sortable, filterable list widget. The definitions below are a shallow
embedding of the Go source; machine integers are modelled as Int (the values
involved are far from overflow), the external cursor position is passed as an
explicit argument, and the in-place field mutations of the Go methods are
modelled as functions returning the updated widget state.
-/

/-- Sort modes used by the containers widget. The enumeration lives in the
docker package (outside the provided source tree); the five values below are
exactly the ones this widget mentions, with NoSort as the zero value, as the
spec describes. -/
inductive SortMode where
  | NoSort
  | SortByContainerID
  | SortByImage
  | SortByStatus
  | SortByName
deriving DecidableEq

/-- Embedding of the switch statement in the Sort method (containers.go lines
152-166): SortByContainerID -> SortByImage -> SortByStatus -> SortByName ->
SortByContainerID, and the default branch leaves the mode unchanged. -/
def rotateSortMode : SortMode → SortMode
  | SortMode.SortByContainerID => SortMode.SortByImage
  | SortMode.SortByImage => SortMode.SortByStatus
  | SortMode.SortByStatus => SortMode.SortByName
  | SortMode.SortByName => SortMode.SortByContainerID
  | m => m

/-- One row of the widget. The four string fields embed the rendered cell
texts used as sort keys (ID.Text, Image.Text, Status.Text, Names.Text), and
highlighted embeds the visual selection flag toggled by Highlighted and
NotHighlighted. -/
structure ContainerRow where
  ID : String
  Image : String
  Status : String
  Names : String
  highlighted : Bool
deriving DecidableEq

/-- The mutable state of ContainersWidget (containers.go lines 30-44).
The docker daemon handle, the row filter list and the shared table header
value are external collaborators and are not part of the state modelled
here; the header titles are modelled separately for updateTableHeader. -/
structure ContainersWidget where
  containers : List ContainerRow
  showAllContainers : Bool
  sortMode : SortMode
  filterPattern : String
  mounted : Bool
  selectedIndex : Int
  x : Int
  y : Int
  height : Int
  width : Int
  startIndex : Int
  endIndex : Int
deriving DecidableEq

/-- RowCount (containers.go lines 146-148): the length of the unfiltered
row collection. -/
def RowCount (s : ContainersWidget) : Int :=
  (s.containers.length : Int)

/-- Character-list test: does s start with the pattern pat. -/
def charsHasHead : List Char → List Char → Bool
  | [], _ => true
  | _ :: _, [] => false
  | p :: ps, c :: cs => p == c && charsHasHead ps cs

/-- Character-list substring test, embedding strings.Contains(s, pat). -/
def charsContains : List Char → List Char → Bool
  | [], pat => charsHasHead pat []
  | c :: cs, pat => charsHasHead pat (c :: cs) || charsContains cs pat

/-- Modelled from the spec: containerRowFilters.ByName (defined outside the
provided source) keeps the rows whose name field contains the pattern as a
substring, preserving order. -/
def byNameFilter (pattern : String) (rows : List ContainerRow) : List ContainerRow :=
  rows.filter (fun r => charsContains r.Names.toList pattern.toList)

/-- applyFilters (containers.go lines 199-205): a non-empty pattern narrows
the view through the by-name filter, the empty pattern returns the stored
row collection itself. -/
def applyFilters (s : ContainersWidget) : List ContainerRow :=
  if s.filterPattern ≠ "" then byNameFilter s.filterPattern s.containers
  else s.containers

/-- The cell text compared by the sort closure selected for each mode in
sortRows (containers.go lines 258-276). The NoSort case is unreachable
there because sortRows returns early on NoSort. -/
def sortKey (mode : SortMode) (r : ContainerRow) : String :=
  match mode with
  | SortMode.SortByContainerID => r.ID
  | SortMode.SortByImage => r.Image
  | SortMode.SortByStatus => r.Status
  | SortMode.SortByName => r.Names
  | SortMode.NoSort => ""

/-- sortRows (containers.go lines 250-278): early return on NoSort,
otherwise sort.SliceStable with a less-than comparison on the cell text of
the active mode, embedded as the stable merge sort on that key. -/
def sortRows (mode : SortMode) (rows : List ContainerRow) : List ContainerRow :=
  if mode = SortMode.NoSort then rows
  else rows.mergeSort (fun a b => decide (sortKey mode a ≤ sortKey mode b))

/-- Go slice expression rows[a:b]: defined (some) exactly when
0 ≤ a ≤ b ≤ len(rows), none models the out-of-range panic. -/
def goSlice (rows : List ContainerRow) (a b : Int) : Option (List ContainerRow) :=
  if 0 ≤ a ∧ a ≤ b ∧ b ≤ (rows.length : Int) then
    some ((rows.take b.toNat).drop a.toNat)
  else none

/-- The if-else chain of visibleRows that recomputes the window bounds
(containers.go lines 294-309), as a pure function of the viewport height,
the prior bounds, the filtered row count and the cursor position. -/
def newBounds (height st en count sel : Int) : Int × Int :=
  if sel = 0 then (0, height)
  else if sel ≥ count - 1 then (count - height, count)
  else if sel = en then (st + 1, en + 1)
  else if sel ≤ st then (st - 1, en - 1)
  else if sel > en then (sel - height, sel)
  else (st, en)

/-- visibleRows (containers.go lines 280-311). A negative height yields no
rows; when the filtered count fits the height the whole filtered list is
returned with the stored bounds untouched; otherwise the bounds are
recomputed by the if-else chain and the slice rows[startIndex:endIndex] is
returned. The updated widget carries the mutated startIndex and endIndex. -/
def visibleRows (s : ContainersWidget) (sel : Int) : ContainersWidget × Option (List ContainerRow) :=
  if s.height < 0 then (s, some [])
  else if ((applyFilters s).length : Int) ≤ s.height then (s, some (applyFilters s))
  else
    ({ s with
        startIndex := (newBounds s.height s.startIndex s.endIndex ((applyFilters s).length : Int) sel).1,
        endIndex := (newBounds s.height s.startIndex s.endIndex ((applyFilters s).length : Int) sel).2 },
      goSlice (applyFilters s)
        (newBounds s.height s.startIndex s.endIndex ((applyFilters s).length : Int) sel).1
        (newBounds s.height s.startIndex s.endIndex ((applyFilters s).length : Int) sel).2)

/-- highlightSelectedRow (containers.go lines 207-223). The cursor position
read from ui.ActiveScreen.Cursor.Position() is the cursorPos argument. Note
the clamp triggers only when the position strictly exceeds the row count. -/
def highlightSelectedRow (s : ContainersWidget) (cursorPos : Int) : ContainersWidget :=
  if RowCount s = 0 then s
  else
    let index := if cursorPos > RowCount s then RowCount s - 1 else cursorPos
    { s with
        selectedIndex := index,
        containers := s.containers.mapIdx (fun i c =>
          if (i : Int) ≠ index then { c with highlighted := false }
          else { c with highlighted := true }) }

/-- OnEvent (containers.go lines 138-143). The returned triple is the
(unchanged) widget state, the result handed back to the caller, and the
list of identifiers the event callback was invoked with; none from an
out-of-range selected index models the Go indexing panic. -/
def OnEvent (s : ContainersWidget) (event : String → Except String Unit) :
    ContainersWidget × Except String Unit × List String :=
  if 0 < s.containers.length then
    match (if 0 ≤ s.selectedIndex then s.containers.get? s.selectedIndex.toNat else none) with
    | some row => (s, event row.ID, [row.ID])
    | none => (s, Except.error "index out of range", [])
  else (s, Except.error "The container list is empty", [])

/-- Sort (containers.go lines 152-166) rotates the active sort mode. -/
def sortCommand (s : ContainersWidget) : ContainersWidget :=
  { s with sortMode := rotateSortMode s.sortMode }

/-- Modelled from the spec: the active-sort marker glyph DownArrow (defined
outside the provided source) prefixed to the title of the active sort
column. Titles are modelled as character lists. -/
def DownArrow : List Char := ['↓']

/-- Modelled from the spec: the length of the marker stripped from the
front of a marked title. -/
def DownArrowLength : Nat := DownArrow.length

/-- A table column header title together with its sort key. -/
structure SortableColumnHeader where
  Title : List Char
  Mode : SortMode
deriving DecidableEq

/-- containerTableHeaders (containers.go lines 19-27). -/
def containerTableHeaders : List SortableColumnHeader :=
  [⟨[], SortMode.NoSort⟩,
   ⟨"CONTAINER".toList, SortMode.SortByContainerID⟩,
   ⟨"IMAGE".toList, SortMode.SortByImage⟩,
   ⟨"COMMAND".toList, SortMode.NoSort⟩,
   ⟨"STATUS".toList, SortMode.SortByStatus⟩,
   ⟨"PORTS".toList, SortMode.NoSort⟩,
   ⟨"NAMES".toList, SortMode.SortByName⟩]

/-- The linear scan in updateTableHeader (containers.go lines 234-239) that
finds the header entry whose title equals the stripped column title; the
zero value of SortableColumnHeader stands when no entry matches. -/
def lookupHeader (t : List Char) : SortableColumnHeader :=
  (containerTableHeaders.find? (fun h => h.Title == t)).getD ⟨[], SortMode.NoSort⟩

/-- The per-column body of updateTableHeader (containers.go lines 228-246):
strip the marker from the front when the title contains it, look the
stripped title up, and re-mark it exactly when its sort key equals the
active mode. -/
def updateTitle (sortMode : SortMode) (t : List Char) : List Char :=
  let colTitle := if charsContains t DownArrow then t.drop DownArrowLength else t
  if (lookupHeader colTitle).Mode = sortMode then DownArrow ++ colTitle else colTitle

/-- updateTableHeader (containers.go lines 225-248) over the list of column
titles. -/
def updateTableHeader (sortMode : SortMode) (titles : List (List Char)) : List (List Char) :=
  titles.map (updateTitle sortMode)

/-- Lock operations on the single widget mutex. -/
inductive LockEvent where
  | acquire
  | release
deriving DecidableEq

/-- The lock-event sequence a method body performs on one control-flow exit
path. A deferred unlock after a lock at method entry yields the bracket
[acquire, release] on every exit path. -/
def lockBracket : List LockEvent := [LockEvent.acquire, LockEvent.release]

/-- Mount (containers.go lines 108-130): s.Lock() then defer s.Unlock(),
one exit path. -/
def mountLockPaths : List (List LockEvent) := [lockBracket]

/-- Unmount (containers.go lines 178-183): lock plus deferred unlock. -/
def unmountLockPaths : List (List LockEvent) := [lockBracket]

/-- Buffer (containers.go lines 64-97): lock plus deferred unlock. -/
def bufferLockPaths : List (List LockEvent) := [lockBracket]

/-- Filter (containers.go lines 100-105): lock plus deferred unlock. -/
def filterLockPaths : List (List LockEvent) := [lockBracket]

/-- Sort (containers.go lines 152-166): lock plus deferred unlock. -/
def sortLockPaths : List (List LockEvent) := [lockBracket]

/-- ToggleShowAllContainers (containers.go lines 169-175): lock plus
deferred unlock. -/
def toggleShowAllLockPaths : List (List LockEvent) := [lockBracket]

/-- OnEvent (containers.go lines 138-143): no lock operation at all on
either of its two return paths. -/
def onEventLockPaths : List (List LockEvent) := [[], []]

/-- RowCount (containers.go lines 146-148): no lock operation on its single
return path. -/
def rowCountLockPaths : List (List LockEvent) := [[]]

/-- An operation holds the widget lock for its whole duration when every
exit path is exactly the acquire-release bracket. -/
def holdsLockWholeOperation (paths : List (List LockEvent)) : Bool :=
  !paths.isEmpty && paths.all (fun t => t == lockBracket)

/-- The eight public operations named by the spec, with the lock behaviour
transcribed from their bodies. -/
def publicOpLockPaths : List (List (List LockEvent)) :=
  [mountLockPaths, unmountLockPaths, bufferLockPaths, filterLockPaths,
   sortLockPaths, toggleShowAllLockPaths, onEventLockPaths, rowCountLockPaths]

/-- A concrete row used by the concrete test states below. -/
def row0 : ContainerRow := ⟨"id0", "img0", "st0", "name0", true⟩

/-- Concrete widget state for the windower bound claims: three rows, empty
filter pattern, height 2, stale stored bounds (0, 5). -/
def wC1cex : ContainersWidget :=
  ⟨List.replicate 3 row0, false, SortMode.SortByContainerID, "", true, 0, 0, 0, 2, 80, 0, 5⟩

/-- Concrete widget state with one row, height 5 and stored bounds (1, 2):
the whole set fits the viewport. -/
def wC7 : ContainersWidget :=
  ⟨[row0], false, SortMode.SortByContainerID, "", true, 0, 0, 0, 5, 80, 1, 2⟩

/-- Concrete widget state with a single (initially highlighted) row. -/
def wC2 : ContainersWidget :=
  ⟨[row0], false, SortMode.SortByContainerID, "", true, 0, 0, 0, 10, 80, 0, 0⟩

/-- Concrete widget state with no rows at all. -/
def wC4 : ContainersWidget :=
  ⟨[], false, SortMode.SortByContainerID, "", true, 0, 0, 0, 10, 80, 0, 0⟩

/-- Concrete widget state with two rows and the empty filter pattern. -/
def wC9 : ContainersWidget :=
  ⟨List.replicate 2 row0, false, SortMode.SortByContainerID, "", true, 0, 0, 0, 10, 80, 0, 0⟩

/-- Concrete widget state matching the spec example: twenty rows, height 10,
window (5, 15). -/
def wC10 : ContainersWidget :=
  ⟨List.replicate 20 row0, false, SortMode.SortByContainerID, "", true, 0, 0, 0, 10, 80, 5, 15⟩

/-- The window recomputation preserves the bound invariant when the prior
bounds are themselves a valid window for the current count and height and
the cursor is nonnegative. -/
theorem newBounds_invariant (height st en count sel : Int)
    (h1 : 0 ≤ st) (h2 : st ≤ en) (h3 : en ≤ count) (h4 : en - st = height)
    (h5 : height < count) (h6 : 0 ≤ sel) :
    0 ≤ (newBounds height st en count sel).1 ∧
      (newBounds height st en count sel).1 ≤ (newBounds height st en count sel).2 ∧
      (newBounds height st en count sel).2 ≤ count ∧
      (newBounds height st en count sel).2 - (newBounds height st en count sel).1 = height := by
  unfold newBounds
  split_ifs <;> refine ⟨?_, ?_, ?_, ?_⟩ <;> dsimp only <;> omega

/-- C1 (amended): for prior stored bounds that are themselves a valid window
for the current filtered count and height (0 ≤ startIndex ≤ endIndex ≤
totalCount with endIndex - startIndex = height), a nonnegative cursor and
totalCount > height, the recomputed bounds satisfy
0 ≤ startIndex ≤ endIndex ≤ totalCount and the returned slice
rows[startIndex:endIndex] is within range. For arbitrary prior bounds the
invariant fails (see the counterexample). -/
theorem visibleRows_bounds_invariant (s : ContainersWidget) (sel : Int)
    (h1 : 0 ≤ s.startIndex) (h2 : s.startIndex ≤ s.endIndex)
    (h3 : s.endIndex ≤ ((applyFilters s).length : Int))
    (h4 : s.endIndex - s.startIndex = s.height)
    (h5 : s.height < ((applyFilters s).length : Int))
    (h6 : 0 ≤ sel) :
    0 ≤ (visibleRows s sel).1.startIndex ∧
      (visibleRows s sel).1.startIndex ≤ (visibleRows s sel).1.endIndex ∧
      (visibleRows s sel).1.endIndex ≤ ((applyFilters s).length : Int) ∧
      (visibleRows s sel).1.endIndex - (visibleRows s sel).1.startIndex = s.height ∧
      ((visibleRows s sel).2).isSome = true := by
  have hb := newBounds_invariant s.height s.startIndex s.endIndex
    ((applyFilters s).length : Int) sel h1 h2 h3 h4 h5 h6
  have hh0 : ¬ s.height < 0 := by omega
  have hc0 : ¬ ((applyFilters s).length : Int) ≤ s.height := by omega
  unfold visibleRows
  rw [if_neg hh0, if_neg hc0]
  refine ⟨hb.1, hb.2.1, hb.2.2.1, hb.2.2.2, ?_⟩
  unfold goSlice
  rw [if_pos ⟨hb.1, hb.2.1, hb.2.2.1⟩]
  rfl

/-- C1 counterexample: with stale prior stored bounds (0, 5), height 2,
three filtered rows and cursor position 1, the recomputed endIndex is 5,
which exceeds the filtered count 3, and the slice is out of range. -/
theorem visibleRows_bounds_cex :
    ((applyFilters wC1cex).length : Int) = 3 ∧
    (visibleRows wC1cex 1).1.endIndex = 5 ∧
    ¬ ((visibleRows wC1cex 1).1.endIndex ≤ ((applyFilters wC1cex).length : Int)) ∧
    (visibleRows wC1cex 1).2 = none := by decide

/-- C1 witness: the invariant theorem applied to a concrete valid state. -/
theorem visibleRows_bounds_invariant_witness :
    0 ≤ (visibleRows wC10 15).1.startIndex ∧
      (visibleRows wC10 15).1.startIndex ≤ (visibleRows wC10 15).1.endIndex ∧
      (visibleRows wC10 15).1.endIndex ≤ ((applyFilters wC10).length : Int) ∧
      (visibleRows wC10 15).1.endIndex - (visibleRows wC10 15).1.startIndex = wC10.height ∧
      ((visibleRows wC10 15).2).isSome = true :=
  visibleRows_bounds_invariant wC10 15 (by decide) (by decide) (by decide)
    (by decide) (by decide) (by decide)

/-- C7 (amended): when the filtered count fits the (nonnegative) viewport
height, visibleRows returns the entire filtered row sequence regardless of
the selection index and leaves the widget state, in particular the stored
window bounds, unchanged; it does not reset them to the full range. -/
theorem visibleRows_fullfit (s : ContainersWidget) (sel : Int)
    (h0 : 0 ≤ s.height)
    (h1 : ((applyFilters s).length : Int) ≤ s.height) :
    visibleRows s sel = (s, some (applyFilters s)) := by
  have hh0 : ¬ s.height < 0 := by omega
  unfold visibleRows
  rw [if_neg hh0, if_pos h1]

/-- C7 counterexample: a full-fit call on a widget whose stored bounds are
(1, 2) with one filtered row returns with the bounds still (1, 2), not the
full range (0, 1). -/
theorem visibleRows_fullfit_cex :
    ((applyFilters wC7).length : Int) ≤ wC7.height ∧
    ¬ ((visibleRows wC7 0).1.startIndex = 0 ∧
        (visibleRows wC7 0).1.endIndex = ((applyFilters wC7).length : Int)) := by decide

/-- C7 witness: the full-fit theorem applied to a concrete state with an
arbitrary selection index. -/
theorem visibleRows_fullfit_witness :
    visibleRows wC7 3 = (wC7, some (applyFilters wC7)) :=
  visibleRows_fullfit wC7 3 (by decide) (by decide)

/-- C10 (confirmed): in the windowing regime (totalCount > height ≥ 0),
when the prior window spans exactly the height and the selection equals the
prior endIndex while being neither 0 nor at the end of the set, visibleRows
advances both bounds by exactly one. -/
theorem visibleRows_scroll_down_one (s : ContainersWidget) (sel : Int)
    (h0 : 0 ≤ s.height)
    (h1 : s.height < ((applyFilters s).length : Int))
    (h2 : s.endIndex - s.startIndex = s.height)
    (h3 : sel = s.endIndex)
    (h4 : sel ≠ 0)
    (h5 : sel < ((applyFilters s).length : Int) - 1) :
    (visibleRows s sel).1.startIndex = s.startIndex + 1 ∧
      (visibleRows s sel).1.endIndex = s.endIndex + 1 := by
  have hh0 : ¬ s.height < 0 := by omega
  have hc0 : ¬ ((applyFilters s).length : Int) ≤ s.height := by omega
  have hge : ¬ sel ≥ ((applyFilters s).length : Int) - 1 := by omega
  unfold visibleRows
  rw [if_neg hh0, if_neg hc0]
  unfold newBounds
  rw [if_neg h4, if_neg hge, if_pos h3]
  exact ⟨rfl, rfl⟩

/-- C10 witness: the spec example, window (5, 15) with height 10, twenty
rows and the selection advancing to 15, becomes (6, 16). -/
theorem visibleRows_scroll_down_one_witness :
    (visibleRows wC10 15).1.startIndex = wC10.startIndex + 1 ∧
      (visibleRows wC10 15).1.endIndex = wC10.endIndex + 1 :=
  visibleRows_scroll_down_one wC10 15 (by decide) (by decide) (by decide)
    (by decide) (by decide) (by decide)

/-- C4 (confirmed): dispatching an event on a widget whose row collection is
empty returns the empty-collection error, never invokes the supplied action
and leaves the widget state unchanged. -/
theorem onEvent_empty_collection (s : ContainersWidget)
    (event : String → Except String Unit) (h : s.containers = []) :
    OnEvent s event = (s, Except.error "The container list is empty", []) := by
  unfold OnEvent
  rw [h]
  simp

/-- C4 witness: the empty-dispatch theorem applied to a concrete empty
widget and a concrete action. -/
theorem onEvent_empty_collection_witness :
    OnEvent wC4 (fun _ => Except.ok ()) =
      (wC4, Except.error "The container list is empty", []) :=
  onEvent_empty_collection wC4 (fun _ => Except.ok ()) rfl

/-- C6 (confirmed): the sort-mode rotation is a deterministic 4-cycle from
SortByContainerID, and rotating any mode other than NoSort never yields
NoSort. -/
theorem sort_rotation_cycle :
    rotateSortMode (rotateSortMode (rotateSortMode (rotateSortMode
      SortMode.SortByContainerID))) = SortMode.SortByContainerID ∧
    ∀ m : SortMode, m ≠ SortMode.NoSort → rotateSortMode m ≠ SortMode.NoSort := by
  constructor
  · rfl
  · intro m hm
    cases m
    · exact absurd rfl hm
    all_goals decide

/-- C6 witness: rotating SortByImage does not yield NoSort. -/
theorem sort_rotation_cycle_witness :
    rotateSortMode SortMode.SortByImage ≠ SortMode.NoSort :=
  sort_rotation_cycle.2 SortMode.SortByImage (by decide)

/-- C2 (code divergence): with one row and the external cursor at position
1 = rowCount, the clamp does not trigger (it requires position strictly
greater than the row count), so selectedIndex is set to 1, outside
[0, rowCount-1], and no row at all ends up highlighted. -/
theorem highlightSelectedRow_offByOne :
    RowCount wC2 = 1 ∧
    (highlightSelectedRow wC2 1).selectedIndex = 1 ∧
    (highlightSelectedRow wC2 1).containers.all (fun c => !c.highlighted) = true := by decide

/-- C3 counterexample: not every public operation brackets its body with
the widget lock; the conjunction over all eight operations is false. -/
theorem lock_discipline_cex :
    publicOpLockPaths.all holdsLockWholeOperation = false := by decide

/-- C3 (amended): Mount, Unmount, Buffer, Filter, Sort and
ToggleShowAllContainers hold the lock for their whole duration, releasing
it on every exit path, while OnEvent and RowCount perform no lock operation
at all. -/
theorem lock_discipline_amended :
    ([mountLockPaths, unmountLockPaths, bufferLockPaths, filterLockPaths,
      sortLockPaths, toggleShowAllLockPaths].all holdsLockWholeOperation = true) ∧
    onEventLockPaths.all (fun t => t.isEmpty) = true ∧
    rowCountLockPaths.all (fun t => t.isEmpty) = true := by decide

/-- C9 (confirmed): filtering with the empty pattern returns exactly the
stored row collection, unchanged. -/
theorem applyFilters_empty_identity (s : ContainersWidget)
    (h : s.filterPattern = "") : applyFilters s = s.containers := by
  unfold applyFilters
  rw [h]
  simp

/-- C9 witness: the empty-pattern identity applied to a concrete widget. -/
theorem applyFilters_empty_identity_witness :
    applyFilters wC9 = wC9.containers :=
  applyFilters_empty_identity wC9 rfl

/-- A character list starting with the marker glyph contains the marker. -/
theorem charsContains_marker_cons (l : List Char) :
    charsContains ('↓' :: l) DownArrow = true := by
  simp [charsContains, charsHasHead, DownArrow]

/-- Updating a title that carries exactly one leading marker gives the same
result as updating the bare title: the strip-then-remark step removes the
marker first. -/
theorem updateTitle_marked (m : SortMode) (bare : List Char)
    (hclean : charsContains bare DownArrow = false) :
    updateTitle m (DownArrow ++ bare) = updateTitle m bare := by
  have h1 : charsContains (DownArrow ++ bare) DownArrow = true :=
    charsContains_marker_cons bare
  have h2 : (DownArrow ++ bare).drop DownArrowLength = bare := rfl
  simp [updateTitle, h1, h2, hclean]

/-- Updating a marker-free title twice gives the same result as updating it
once. -/
theorem updateTitle_idem (m : SortMode) (bare : List Char)
    (hclean : charsContains bare DownArrow = false) :
    updateTitle m (updateTitle m bare) = updateTitle m bare := by
  have hbase : updateTitle m bare =
      if (lookupHeader bare).Mode = m then DownArrow ++ bare else bare := by
    simp [updateTitle, hclean]
  by_cases hm : (lookupHeader bare).Mode = m
  · have hmark : updateTitle m bare = DownArrow ++ bare := by rw [hbase, if_pos hm]
    rw [hmark, updateTitle_marked m bare hclean]
    exact hmark
  · have hbare : updateTitle m bare = bare := by rw [hbase, if_neg hm]
    rw [hbare]
    exact hbare

/-- C5 (amended): for a title in which the marker occurs at most as a single
leading glyph - which covers every title the widget header can actually
hold - the per-column update is idempotent: updating twice equals updating
once, and an already-marked title does not accumulate a second marker.
Moreover, applied to the base column titles, the update marks exactly the
columns whose sort key equals the active mode. For arbitrary titles with
stray embedded markers idempotence fails (see the counterexample). -/
theorem updateTableHeader_idempotent (m : SortMode) (bare : List Char)
    (hclean : charsContains bare DownArrow = false) :
    updateTitle m (updateTitle m bare) = updateTitle m bare ∧
    updateTitle m (DownArrow ++ bare) = updateTitle m bare ∧
    updateTableHeader m (containerTableHeaders.map (fun h => h.Title)) =
      containerTableHeaders.map
        (fun h => if h.Mode = m then DownArrow ++ h.Title else h.Title) := by
  refine ⟨updateTitle_idem m bare hclean, updateTitle_marked m bare hclean, ?_⟩
  cases m <;> decide

/-- C5 counterexample: a title carrying two stacked markers is not a fixed
point after one update; the two updates strip one marker each, so applying
the header update twice differs from applying it once. -/
theorem updateTableHeader_cex :
    updateTitle SortMode.SortByImage
        (updateTitle SortMode.SortByImage ('↓' :: '↓' :: "CONTAINER".toList)) ≠
      updateTitle SortMode.SortByImage ('↓' :: '↓' :: "CONTAINER".toList) := by decide

/-- C5 witness: the idempotence theorem applied to the CONTAINER column
title with the container-id sort mode active. -/
theorem updateTableHeader_idempotent_witness :
    updateTitle SortMode.SortByContainerID
        (updateTitle SortMode.SortByContainerID "CONTAINER".toList) =
      updateTitle SortMode.SortByContainerID "CONTAINER".toList ∧
    updateTitle SortMode.SortByContainerID (DownArrow ++ "CONTAINER".toList) =
      updateTitle SortMode.SortByContainerID "CONTAINER".toList ∧
    updateTableHeader SortMode.SortByContainerID
        (containerTableHeaders.map (fun h => h.Title)) =
      containerTableHeaders.map
        (fun h => if h.Mode = SortMode.SortByContainerID then DownArrow ++ h.Title
          else h.Title) :=
  updateTableHeader_idempotent SortMode.SortByContainerID "CONTAINER".toList (by decide)

/-- Stability of the stable merge sort on a string key, stated through
filters: the subsequence of elements whose key equals any fixed value is
unchanged by the sort. -/
theorem filter_mergeSort_eq_key {α : Type} (key : α → String) (l : List α) (k : String) :
    (l.mergeSort (fun a b => decide (key a ≤ key b))).filter
        (fun a => decide (key a = k)) =
      l.filter (fun a => decide (key a = k)) := by
  have htrans : ∀ a b c : α, decide (key a ≤ key b) → decide (key b ≤ key c) →
      decide (key a ≤ key c) := by
    intro a b c hab hbc
    simp only [decide_eq_true_eq] at hab hbc ⊢
    exact le_trans hab hbc
  have htotal : ∀ a b : α, decide (key a ≤ key b) || decide (key b ≤ key a) := by
    intro a b
    simp only [Bool.or_eq_true, decide_eq_true_eq]
    exact le_total _ _
  have hmem : ∀ a ∈ l.filter (fun a => decide (key a = k)), key a = k := by
    intro a ha
    simpa using (List.mem_filter.mp ha).2
  have hpair : (l.filter (fun a => decide (key a = k))).Pairwise
      (fun a b => decide (key a ≤ key b) = true) := by
    apply List.pairwise_of_forall_mem_list
    intro a ha b hb
    have h1 := hmem a ha
    have h2 := hmem b hb
    simp [h1, h2]
  have hsub : List.Sublist (l.filter (fun a => decide (key a = k)))
      (l.mergeSort (fun a b => decide (key a ≤ key b))) :=
    List.sublist_mergeSort htrans htotal hpair (List.filter_sublist l)
  have hsub2 : List.Sublist (l.filter (fun a => decide (key a = k)))
      ((l.mergeSort (fun a b => decide (key a ≤ key b))).filter
        (fun a => decide (key a = k))) := by
    have hself : (l.filter (fun a => decide (key a = k))).filter
        (fun a => decide (key a = k)) = l.filter (fun a => decide (key a = k)) := by
      apply List.filter_eq_self.mpr
      intro a ha
      simp [hmem a ha]
    have := hsub.filter (fun a => decide (key a = k))
    rwa [hself] at this
  have hlen : ((l.mergeSort (fun a b => decide (key a ≤ key b))).filter
      (fun a => decide (key a = k))).length =
      (l.filter (fun a => decide (key a = k))).length :=
    ((List.mergeSort_perm l (fun a b => decide (key a ≤ key b))).filter
      (fun a => decide (key a = k))).length_eq
  exact (hsub2.eq_of_length hlen.symm).symm

/-- C8 (confirmed): sortRows is stable - for every mode and every fixed key
value, the rows whose sort-key field equals that value appear in the sorted
output in exactly their original relative order - and with mode NoSort the
row sequence is returned entirely unchanged. -/
theorem sortRows_stable_noSort_id (mode : SortMode) (rows : List ContainerRow) (k : String) :
    (sortRows mode rows).filter (fun r => decide (sortKey mode r = k)) =
      rows.filter (fun r => decide (sortKey mode r = k)) ∧
    sortRows SortMode.NoSort rows = rows := by
  constructor
  · by_cases hm : mode = SortMode.NoSort
    · simp [sortRows, hm]
    · simp only [sortRows, if_neg hm]
      exact filter_mergeSort_eq_key (sortKey mode) rows k
  · simp [sortRows]
